import Mathlib

/-!
Shallow embedding of the go-sarah-discord adapter (package `discord`).

The repository bridges the go-sarah bot framework and Discord via discordgo.
Its core file `config.go` defines:
  * `Config` with token / help / abort trigger strings and gateway intents,
  * `Adapter` with `NewAdapter`, `Run`, `handleMessage`, `SendMessage`,
  * the inbound translation `MessageToInput` producing an `Input`,
  * the response builder `NewResponse` with its functional options.

External framework values (sarah.HelpInput / sarah.AbortInput wrappers, the
sarah.CommandResponse shape, discordgo's MessageCreate fields used by the
adapter) are embedded as plain records / inductives carrying exactly the
data the adapter reads or writes.
-/

namespace Discord

/-- Errors defined in `errors.go` plus the wrapped session-creation failure
produced by `NewAdapter` via `fmt.Errorf`. -/
inductive DiscordError where
  | emptyToken : DiscordError
  | noAuthor : DiscordError
  | sessionCreateFailed (msg : String) : DiscordError
  deriving DecidableEq, Repr

/-- Discord user as read by the adapter: only `Author.ID` is consumed. -/
structure User where
  id : String
  deriving DecidableEq, Repr

/-- The fields of `*discordgo.MessageCreate` the adapter reads.
`author = none` models a nil `Author` pointer (system messages);
`timestamp` models `time.Time` as an abstract tick count. -/
structure MessageCreate where
  author : Option User
  channelID : String
  content : String
  timestamp : Nat
  deriving DecidableEq, Repr

/-- `type ChannelID string` — a Discord channel used as output destination. -/
structure ChannelID where
  val : String
  deriving DecidableEq, Repr

/-- The `Input` struct: a received Discord message as a sarah.Input. -/
structure Input where
  event : MessageCreate
  senderKey : String
  text : String
  sentAt : Nat
  channelID : ChannelID
  deriving DecidableEq, Repr

/-- `sarah.OutputDestination` as consumed by `SendMessage`: either this
adapter's `ChannelID` or some other destination type (the type switch
`output.Destination().(ChannelID)` fails on the latter). -/
inductive OutputDestination where
  | channel (c : ChannelID) : OutputDestination
  | other (tag : String) : OutputDestination
  deriving DecidableEq, Repr

/-- Method `Input.SenderKey`. -/
def Input.SenderKey (i : Input) : String := i.senderKey

/-- Method `Input.Message`. -/
def Input.Message (i : Input) : String := i.text

/-- Method `Input.SentAt`. -/
def Input.SentAt (i : Input) : Nat := i.sentAt

/-- Method `Input.ReplyTo`: returns the wrapped channel identifier. -/
def Input.ReplyTo (i : Input) : OutputDestination := .channel i.channelID

/-- `MessageToInput`: converts a `*discordgo.MessageCreate` to `*Input`.
Fails with `ErrNoAuthor` when the author pointer is nil; otherwise builds
the Input with sender key `fmt.Sprintf("%s_%s", m.ChannelID, m.Author.ID)`,
the raw content, the event timestamp and the wrapped channel ID. -/
def messageToInput (m : MessageCreate) : Except DiscordError Input :=
  match m.author with
  | none => .error .noAuthor
  | some a =>
    .ok { event := m
          senderKey := m.channelID ++ "_" ++ a.id
          text := m.content
          sentAt := m.timestamp
          channelID := ⟨m.channelID⟩ }

/-- Go's `unicode.IsSpace`: the Latin-1 fast path characters plus the
Unicode White_Space code points, as tabled in the Go `unicode` package. -/
def goIsSpace (c : Char) : Bool :=
  if c.val < 0x100 then
    c.val = 0x09 || c.val = 0x0A || c.val = 0x0B || c.val = 0x0C ||
    c.val = 0x0D || c.val = 0x20 || c.val = 0x85 || c.val = 0xA0
  else
    c.val = 0x1680 || (0x2000 ≤ c.val && c.val ≤ 0x200A) ||
    c.val = 0x2028 || c.val = 0x2029 || c.val = 0x202F ||
    c.val = 0x205F || c.val = 0x3000

/-- Go's `strings.TrimSpace`: drop leading and trailing `unicode.IsSpace`
characters. -/
def trimSpace (s : String) : String :=
  ⟨((s.data.dropWhile goIsSpace).reverse.dropWhile goIsSpace).reverse⟩

/-- `Config` from `config.go`: token, trigger strings and gateway intents. -/
structure Config where
  token : String
  helpCommand : String
  abortCommand : String
  intents : Nat
  deriving DecidableEq, Repr

/-- `discordgo.IntentsGuildMessages` (1 << 9). -/
def intentsGuildMessages : Nat := 512

/-- `discordgo.IntentsDirectMessages` (1 << 12). -/
def intentsDirectMessages : Nat := 4096

/-- `discordgo.IntentsMessageContent` (1 << 15). -/
def intentsMessageContent : Nat := 32768

/-- `NewConfig`: default configuration. -/
def newConfig : Config :=
  { token := ""
    helpCommand := ".help"
    abortCommand := ".abort"
    intents := intentsGuildMessages ||| intentsDirectMessages ||| intentsMessageContent }

/-- The bot's own user as exposed by `discordgo.State` (`State.User`); `none`
models a nil `User` pointer. -/
structure SessionState where
  user : Option User
  deriving DecidableEq, Repr

/-- The `*discordgo.Session` data read by `handleMessage`: `state = none`
models a nil `State` pointer. `intents` records `Identify.Intents` set by
`NewAdapter`. -/
structure Session where
  state : Option SessionState
  intents : Nat
  deriving DecidableEq, Repr

/-- The test `s.State != nil && s.State.User != nil && m.Author.ID == s.State.User.ID`
guarding the self-message filter in `handleMessage`. The author branch is
only reached on messages whose author is non-nil. -/
def isSelfMessage (s : Session) (m : MessageCreate) : Bool :=
  match s.state with
  | none => false
  | some st =>
    match st.user with
    | none => false
    | some botUser =>
      match m.author with
      | some a => a.id == botUser.id
      | none => false

/-- The value handed to the `enqueueInput` callback: either the plain
`Input`, or the framework sentinel `sarah.NewHelpInput(input)` /
`sarah.NewAbortInput(input)` wrapping it. -/
inductive Enqueued where
  | plain (i : Input) : Enqueued
  | help (i : Input) : Enqueued
  | abort (i : Input) : Enqueued
  deriving DecidableEq, Repr

/-- `Adapter.handleMessage`, modelled as the value passed to `enqueueInput`
(`none` when the callback is never invoked): translation failure and
self-authored messages are skipped; the trimmed text is compared against
the non-empty help trigger, then the non-empty abort trigger; otherwise
the plain input is enqueued. An enqueue-callback failure is only logged
and does not change which value was handed over. -/
def handleMessage (config : Config) (s : Session) (m : MessageCreate) :
    Option Enqueued :=
  match messageToInput m with
  | .error _ => none
  | .ok input =>
    if isSelfMessage s m then
      none
    else
      let trimmed := trimSpace input.Message
      if config.helpCommand ≠ "" && trimmed == config.helpCommand then
        some (.help input)
      else if config.abortCommand ≠ "" && trimmed == config.abortCommand then
        some (.abort input)
      else
        some (.plain input)

/-- A `*discordgo.MessageSend` rich payload; the adapter forwards it
unchanged, so it is embedded as an opaque record. -/
structure MessageSend where
  payload : String
  deriving DecidableEq, Repr

/-- One `sarah.CommandHelp` entry: the fields read by `SendMessage`. -/
structure CommandHelp where
  identifier : String
  instruction : String
  deriving DecidableEq, Repr

/-- `sarah.Output` content as inspected by `SendMessage`'s type switch:
a plain string, a `*discordgo.MessageSend`, a `*sarah.CommandHelps` list,
or any other runtime type (the `default` arm). -/
inductive OutputContent where
  | str (s : String) : OutputContent
  | messageSend (ms : MessageSend) : OutputContent
  | commandHelps (hs : List CommandHelp) : OutputContent
  | other (tag : String) : OutputContent
  deriving DecidableEq, Repr

/-- A `sarah.Output`: destination plus content. -/
structure Output where
  destination : OutputDestination
  content : OutputContent
  deriving DecidableEq, Repr

/-- The session send operation invoked by `SendMessage`:
`ChannelMessageSend` (plain) or `ChannelMessageSendComplex`. -/
inductive SendAction where
  | plainSend (channelID : String) (text : String) : SendAction
  | complexSend (channelID : String) (ms : MessageSend) : SendAction
  deriving DecidableEq, Repr

/-- `fmt.Sprintf("**%s**: %s", h.Identifier, h.Instruction)` for one help
entry. -/
def formatCommandHelp (h : CommandHelp) : String :=
  "**" ++ h.identifier ++ "**: " ++ h.instruction

/-- `Adapter.SendMessage`, modelled as the session send operation it
invokes (`none` when it invokes neither: a non-`ChannelID` destination or
an unrecognized content type, both logged no-ops). Send failures from the
session are only logged and do not change which call was made. -/
def sendMessage (output : Output) : Option SendAction :=
  match output.destination with
  | .other _ => none
  | .channel destination =>
    let channelID := destination.val
    match output.content with
    | .str content => some (.plainSend channelID content)
    | .messageSend content => some (.complexSend channelID content)
    | .commandHelps content =>
      let lines := content.map formatCommandHelp
      let text := String.intercalate "\n" lines
      some (.plainSend channelID text)
    | .other _ => none

/-- The `Adapter` struct: owns a `Config` and a session reference;
`session = none` models a nil session field before injection/creation. -/
structure Adapter where
  config : Config
  session : Option Session
  deriving DecidableEq, Repr

/-- `AdapterOption`: a functional option mutating the adapter under
construction. -/
def AdapterOption : Type := Adapter → Adapter

/-- `WithSession`: inject a pre-configured session. -/
def withSession (s : Session) : AdapterOption :=
  fun adapter => { adapter with session := some s }

/-- The option-application loop `for _, opt := range options { opt(adapter) }`. -/
def applyAdapterOptions (options : List AdapterOption) (adapter : Adapter) :
    Adapter :=
  options.foldl (fun acc opt => opt acc) adapter

/-- `NewAdapter`. The external call `discordgo.New("Bot " + config.Token)`
is abstracted as the `create` argument (its failure is the wrapped
session-creation error); on success `NewAdapter` stores the new session
after setting `Identify.Intents` from the config. -/
def newAdapter (create : String → Except String Session)
    (config : Config) (options : List AdapterOption) :
    Except DiscordError Adapter :=
  let adapter := applyAdapterOptions options { config := config, session := none }
  match adapter.session with
  | some _ => .ok adapter
  | none =>
    if config.token = "" then
      .error .emptyToken
    else
      match create ("Bot " ++ config.token) with
      | .error e => .error (.sessionCreateFailed ("failed to create Discord session: " ++ e))
      | .ok s => .ok { adapter with session := some { s with intents := config.intents } }

/-- The observable steps of `Adapter.Run`, in program order: register the
message handler, call `session.Open`, report via `notifyErr` (the flag
records whether the error is `sarah.NewBotNonContinuableError`), block on
context cancellation, call `session.Close`, log a close failure. -/
inductive RunEvent where
  | addHandler : RunEvent
  | openSession : RunEvent
  | notifyErr (nonContinuable : Bool) (msg : String) : RunEvent
  | awaitCancel : RunEvent
  | closeSession : RunEvent
  | logCloseError (msg : String) : RunEvent
  deriving DecidableEq, Repr

/-- `Adapter.Run` as the trace of its observable steps for one execution.
`openResult` / `closeResult` give the error (if any) returned by
`session.Open` / `session.Close`. On open failure the non-continuable
error is reported once and the function returns; otherwise it blocks until
cancellation, then closes the session, logging (only) a close failure. -/
def run (openResult : Option String) (closeResult : Option String) :
    List RunEvent :=
  [RunEvent.addHandler, RunEvent.openSession] ++
    match openResult with
    | some e => [RunEvent.notifyErr true ("failed to open Discord session: " ++ e)]
    | none =>
      [RunEvent.awaitCancel, RunEvent.closeSession] ++
        match closeResult with
        | some e => [RunEvent.logCloseError ("Failed to close Discord session: " ++ e)]
        | none => []

/-- A `sarah.ContextualFunc` continuation callback, embedded as an opaque
token. -/
structure ContextualFunc where
  tag : Nat
  deriving DecidableEq, Repr

/-- A `*sarah.SerializableArgument` continuation descriptor, embedded as an
opaque token. -/
structure SerializableArgument where
  tag : Nat
  deriving DecidableEq, Repr

/-- `sarah.UserContext`: at most one of the continuation fields is set by
this adapter's response options. -/
structure UserContext where
  next : Option ContextualFunc
  serializable : Option SerializableArgument
  deriving DecidableEq, Repr

/-- `sarah.CommandResponse` as built by `NewResponse`: the message content
and the optional user context. -/
structure CommandResponse where
  content : String
  userContext : Option UserContext
  deriving DecidableEq, Repr

/-- The private `respOptions` stash mutated by the functional options. -/
structure RespOptions where
  userContext : Option UserContext
  deriving DecidableEq, Repr

/-- `RespOption`: a functional option mutating the `respOptions` stash. -/
def RespOption : Type := RespOptions → RespOptions

/-- `RespWithNext`: replaces the whole user context with one carrying only
the continuation callback. -/
def respWithNext (fnc : ContextualFunc) : RespOption :=
  fun options =>
    { options with userContext := some { next := some fnc, serializable := none } }

/-- `RespWithNextSerializable`: replaces the whole user context with one
carrying only the serializable continuation descriptor. -/
def respWithNextSerializable (arg : SerializableArgument) : RespOption :=
  fun options =>
    { options with userContext := some { next := none, serializable := some arg } }

/-- The option-application loop in `NewResponse`. -/
def applyRespOptions (options : List RespOption) (stash : RespOptions) :
    RespOptions :=
  options.foldl (fun acc opt => opt acc) stash

/-- A `sarah.Input` value as seen by `NewResponse`'s type assertion: this
adapter's `*discord.Input`, a framework sentinel wrapper (itself a distinct
type), or an input produced by another adapter. -/
inductive SarahInput where
  | discord (i : Input) : SarahInput
  | helpWrapper (inner : SarahInput) : SarahInput
  | abortWrapper (inner : SarahInput) : SarahInput
  | foreign (typeName : String) : SarahInput
  deriving DecidableEq, Repr

/-- The Go dynamic type name printed by `fmt.Errorf("%T is not a *discord.Input", input)`. -/
def SarahInput.goTypeName : SarahInput → String
  | .discord _ => "*discord.Input"
  | .helpWrapper _ => "*sarah.HelpInput"
  | .abortWrapper _ => "*sarah.AbortInput"
  | .foreign typeName => typeName

/-- `NewResponse`: fails unless the input's dynamic type is this adapter's
`*Input`; otherwise applies the options to an empty stash and returns the
response carrying the message and the resulting user context. -/
def newResponse (input : SarahInput) (message : String)
    (options : List RespOption) : Except String CommandResponse :=
  match input with
  | .discord _ =>
    let stash := applyRespOptions options { userContext := none }
    .ok { content := message, userContext := stash.userContext }
  | _ => .error (input.goTypeName ++ " is not a *discord.Input")

/-- Predicate selecting the `notifyErr` steps of a `Run` trace. -/
def isNotifyEvent : RunEvent → Bool
  | .notifyErr _ _ => true
  | _ => false

/-- The `Input` record built by `messageToInput` for a message authored by
`u` (the success branch of the translation). -/
def inputOf (m : MessageCreate) (u : User) : Input :=
  { event := m
    senderKey := m.channelID ++ "_" ++ u.id
    text := m.content
    sentAt := m.timestamp
    channelID := ⟨m.channelID⟩ }

lemma messageToInput_eq_ok {m : MessageCreate} {input : Input}
    (h : messageToInput m = .ok input) :
    ∃ u, m.author = some u ∧ input = inputOf m u := by
  cases hm : m.author with
  | none => simp [messageToInput, hm] at h
  | some u =>
    refine ⟨u, rfl, ?_⟩
    simp [messageToInput, hm, inputOf] at h ⊢
    exact h.symm

lemma messageToInput_some (m : MessageCreate) (u : User)
    (hm : m.author = some u) :
    messageToInput m = .ok (inputOf m u) := by
  simp [messageToInput, hm, inputOf]

lemma handleMessage_not_self {config : Config} {s : Session}
    {m : MessageCreate} {input : Input}
    (hinput : messageToInput m = .ok input)
    (hself : isSelfMessage s m = false) :
    handleMessage config s m =
      (if config.helpCommand ≠ "" && trimSpace input.Message == config.helpCommand then
        some (.help input)
      else if config.abortCommand ≠ "" && trimSpace input.Message == config.abortCommand then
        some (.abort input)
      else
        some (.plain input)) := by
  simp only [handleMessage, hinput, hself, Bool.false_eq_true, if_false]

end Discord

namespace Discord

/-- C1: for every inbound `MessageCreate` whose author is non-nil,
`MessageToInput` succeeds and the produced `Input` has sender key
`<channelID>_<authorID>`, the raw untrimmed content as its message, the
event timestamp as `SentAt`, the wrapped channel ID as `ReplyTo`, and the
original event in its `Event` field. Since the sender key depends only on
the channel and author IDs, two events agreeing on those yield the same
key. -/
theorem messageToInput_spec (u : User) (ch content : String) (ts : Nat) :
    ∃ i, messageToInput
        { author := some u, channelID := ch, content := content, timestamp := ts } =
          .ok i ∧
      i.SenderKey = ch ++ "_" ++ u.id ∧
      i.Message = content ∧
      i.SentAt = ts ∧
      i.ReplyTo = .channel ⟨ch⟩ ∧
      i.event = { author := some u, channelID := ch, content := content, timestamp := ts } := by
  exact ⟨_, rfl, rfl, rfl, rfl, rfl, rfl⟩

/-- C3: `SendMessage` with a `ChannelID` destination dispatches on the
content's runtime type: a string goes to the plain-send operation
unchanged; a `*discordgo.MessageSend` goes to the complex-send operation
unchanged; a list of N help entries goes to the plain-send operation as
the newline-join of N per-entry lines, each formatted
`**identifier**: instruction`; any other content invokes neither
operation. A non-`ChannelID` destination invokes no operation at all. -/
theorem sendMessage_dispatch (destination : ChannelID) (text : String)
    (ms : MessageSend) (hs : List CommandHelp) (hEntry : CommandHelp)
    (contentTag destTag : String) (c : OutputContent) :
    sendMessage { destination := .channel destination, content := .str text } =
      some (.plainSend destination.val text) ∧
    sendMessage { destination := .channel destination, content := .messageSend ms } =
      some (.complexSend destination.val ms) ∧
    sendMessage { destination := .channel destination, content := .commandHelps hs } =
      some (.plainSend destination.val
        (String.intercalate "\n" (hs.map formatCommandHelp))) ∧
    (hs.map formatCommandHelp).length = hs.length ∧
    formatCommandHelp hEntry = "**" ++ hEntry.identifier ++ "**: " ++ hEntry.instruction ∧
    sendMessage { destination := .channel destination, content := .other contentTag } = none ∧
    sendMessage { destination := .other destTag, content := c } = none := by
  refine ⟨rfl, rfl, rfl, ?_, rfl, rfl, rfl⟩
  simp

/-- C7: when `session.Open` fails, `Run` reports the failure exactly once
via `notifyErr` as a non-continuable error and returns at once: the trace
contains a single notify step, `Open` is called exactly once (no retry),
and `session.Close` is never called. -/
theorem run_open_failure (e : String) (closeResult : Option String) :
    run (some e) closeResult =
      [RunEvent.addHandler, RunEvent.openSession,
        RunEvent.notifyErr true ("failed to open Discord session: " ++ e)] ∧
    (run (some e) closeResult).filter isNotifyEvent =
      [RunEvent.notifyErr true ("failed to open Discord session: " ++ e)] ∧
    RunEvent.closeSession ∉ run (some e) closeResult ∧
    (run (some e) closeResult).count RunEvent.openSession = 1 := by
  refine ⟨rfl, ?_, ?_, ?_⟩ <;>
    simp [run, isNotifyEvent, List.filter, List.count_cons]

/-- C9: the response options overwrite the whole user context rather than
merging: whatever options precede it, a final `RespWithNext` leaves a
context carrying only the continuation callback, and a final
`RespWithNextSerializable` leaves one carrying only the serializable
descriptor; in particular passing both options leaves only the field of
the later one. -/
theorem respOption_last_wins (f : ContextualFunc) (a : SerializableArgument)
    (i : Input) (message : String) (pre : List RespOption) :
    newResponse (.discord i) message (pre ++ [respWithNext f]) =
      .ok { content := message,
            userContext := some { next := some f, serializable := none } } ∧
    newResponse (.discord i) message (pre ++ [respWithNextSerializable a]) =
      .ok { content := message,
            userContext := some { next := none, serializable := some a } } ∧
    newResponse (.discord i) message [respWithNext f, respWithNextSerializable a] =
      .ok { content := message,
            userContext := some { next := none, serializable := some a } } ∧
    newResponse (.discord i) message [respWithNextSerializable a, respWithNext f] =
      .ok { content := message,
            userContext := some { next := some f, serializable := none } } := by
  refine ⟨?_, ?_, rfl, rfl⟩ <;>
    simp [newResponse, applyRespOptions, List.foldl_append,
      respWithNext, respWithNextSerializable]

/-- C2: for an inbound event that translates (author non-nil) and is not
filtered as the bot's own message, `handleMessage` dispatches on the
whitespace-trimmed text: equality with a non-empty help trigger enqueues
the help sentinel; failing that, equality with a non-empty abort trigger
enqueues the abort sentinel; an empty trigger disables its comparison; and
when neither trigger matches the plain `Input` is enqueued, its message
still the original untrimmed content. -/
theorem handleMessage_trigger_dispatch (config : Config) (s : Session)
    (m : MessageCreate) (input : Input)
    (hinput : messageToInput m = .ok input)
    (hself : isSelfMessage s m = false) :
    (config.helpCommand ≠ "" → trimSpace input.Message = config.helpCommand →
      handleMessage config s m = some (.help input)) ∧
    (config.abortCommand ≠ "" → trimSpace input.Message = config.abortCommand →
      (config.helpCommand = "" ∨ trimSpace input.Message ≠ config.helpCommand) →
      handleMessage config s m = some (.abort input)) ∧
    ((config.helpCommand = "" ∨ trimSpace input.Message ≠ config.helpCommand) →
     (config.abortCommand = "" ∨ trimSpace input.Message ≠ config.abortCommand) →
      handleMessage config s m = some (.plain input)) ∧
    input.Message = m.content := by
  have hmsg : input.Message = m.content := by
    obtain ⟨u, _, hi⟩ := messageToInput_eq_ok hinput
    simp [hi, inputOf, Input.Message]
  have hbase := @handleMessage_not_self config s m input hinput hself
  refine ⟨?_, ?_, ?_, hmsg⟩
  · intro hne htr
    rw [hbase]
    simp [hne, htr]
  · intro hne htr hnohelp
    rw [hbase]
    rcases hnohelp with h | h
    · simp [hne, htr, h]
    · simp [hne, htr]
      exact fun _ hc => h (htr.trans hc)
  · intro hnohelp hnoabort
    rw [hbase]
    rcases hnohelp with h | h <;> rcases hnoabort with h2 | h2 <;> simp [h, h2]

/-- C2 witness: with the default-style triggers, the message " .help "
from a non-self author is enqueued as a help sentinel. -/
theorem handleMessage_trigger_dispatch_witness :
    handleMessage
        { token := "", helpCommand := ".help", abortCommand := ".abort", intents := 0 }
        { state := none, intents := 0 }
        { author := some ⟨"user-1"⟩, channelID := "ch-1", content := " .help ", timestamp := 3 } =
      some (.help (inputOf
        { author := some ⟨"user-1"⟩, channelID := "ch-1", content := " .help ", timestamp := 3 }
        ⟨"user-1"⟩)) :=
  (handleMessage_trigger_dispatch
      { token := "", helpCommand := ".help", abortCommand := ".abort", intents := 0 }
      { state := none, intents := 0 }
      { author := some ⟨"user-1"⟩, channelID := "ch-1", content := " .help ", timestamp := 3 }
      (inputOf
        { author := some ⟨"user-1"⟩, channelID := "ch-1", content := " .help ", timestamp := 3 }
        ⟨"user-1"⟩)
      (messageToInput_some _ ⟨"user-1"⟩ rfl) rfl).1 (by decide) rfl

/-- C4: `MessageToInput` fails exactly on events with a nil author, the
failure is the `ErrNoAuthor` condition, and for such events
`handleMessage` enqueues nothing (the enqueue callback is never invoked). -/
theorem messageToInput_no_author (m : MessageCreate) (config : Config)
    (s : Session) :
    ((∃ e, messageToInput m = .error e) ↔ m.author = none) ∧
    (∀ e, messageToInput m = .error e → e = DiscordError.noAuthor) ∧
    (m.author = none → handleMessage config s m = none) := by
  cases hm : m.author <;>
    simp [messageToInput, handleMessage, hm]

/-- C4 witness: a concrete author-less system event is rejected with the
no-author error and nothing is enqueued. -/
theorem messageToInput_no_author_witness :
    messageToInput { author := none, channelID := "c", content := "x", timestamp := 0 } =
      .error DiscordError.noAuthor ∧
    handleMessage
        { token := "", helpCommand := ".help", abortCommand := ".abort", intents := 0 }
        { state := none, intents := 0 }
        { author := none, channelID := "c", content := "x", timestamp := 0 } = none :=
  ⟨rfl,
    (messageToInput_no_author
      { author := none, channelID := "c", content := "x", timestamp := 0 }
      { token := "", helpCommand := ".help", abortCommand := ".abort", intents := 0 }
      { state := none, intents := 0 }).2.2 rfl⟩

/-- C5: when the session exposes identity state (non-nil `State` with
non-nil `User`) and the event's author ID equals that identity,
`handleMessage` enqueues nothing; when the session exposes no identity
state (nil `State`, or nil `State.User`), the event is still enqueued. -/
theorem handleMessage_self_filter (config : Config) (s : Session)
    (m : MessageCreate) (u : User) (hu : m.author = some u) :
    (∀ st botUser, s.state = some st → st.user = some botUser →
      u.id = botUser.id → handleMessage config s m = none) ∧
    ((s.state = none ∨ ∃ st, s.state = some st ∧ st.user = none) →
      ∃ v, handleMessage config s m = some v) := by
  constructor
  · intro st botUser hst huser hid
    have hok := messageToInput_some m u hu
    have hself : isSelfMessage s m = true := by
      simp [isSelfMessage, hst, huser, hu, hid]
    simp [handleMessage, hok, hself]
  · intro hnone
    have hok := messageToInput_some m u hu
    have hself : isSelfMessage s m = false := by
      rcases hnone with h | ⟨st, hst, huser⟩ <;>
        simp [isSelfMessage, *]
    rw [handleMessage_not_self hok hself]
    split
    · exact ⟨_, rfl⟩
    split
    · exact ⟨_, rfl⟩
    · exact ⟨_, rfl⟩

/-- C5 witness: a self-authored event is dropped when identity state is
present, and the same event is enqueued when the state is nil. -/
theorem handleMessage_self_filter_witness :
    handleMessage
        { token := "", helpCommand := ".help", abortCommand := ".abort", intents := 0 }
        { state := some { user := some ⟨"bot-1"⟩ }, intents := 0 }
        { author := some ⟨"bot-1"⟩, channelID := "c", content := "hi", timestamp := 0 } = none ∧
    ∃ v, handleMessage
        { token := "", helpCommand := ".help", abortCommand := ".abort", intents := 0 }
        { state := none, intents := 0 }
        { author := some ⟨"bot-1"⟩, channelID := "c", content := "hi", timestamp := 0 } = some v :=
  ⟨(handleMessage_self_filter _
      { state := some { user := some ⟨"bot-1"⟩ }, intents := 0 } _ ⟨"bot-1"⟩ rfl).1
      { user := some ⟨"bot-1"⟩ } ⟨"bot-1"⟩ rfl rfl rfl,
    (handleMessage_self_filter _ { state := none, intents := 0 } _ ⟨"bot-1"⟩ rfl).2
      (Or.inl rfl)⟩

/-- C6: `NewAdapter` fails with `ErrEmptyToken` exactly when the options
leave no injected session and the configured token is empty; an injected
session makes it succeed regardless of the token; and with a non-empty
token and no injected session it calls session creation on
`"Bot " + token`, propagating a creation failure as the wrapped error and
otherwise storing the new session with the configured intents. -/
theorem newAdapter_spec (create : String → Except String Session)
    (config : Config) (options : List AdapterOption) :
    (newAdapter create config options = .error .emptyToken ↔
      (applyAdapterOptions options { config := config, session := none }).session = none ∧
        config.token = "") ∧
    (∀ s,
      (applyAdapterOptions options { config := config, session := none }).session = some s →
      newAdapter create config options =
        .ok (applyAdapterOptions options { config := config, session := none })) ∧
    ((applyAdapterOptions options { config := config, session := none }).session = none →
      config.token ≠ "" →
      (∀ e, create ("Bot " ++ config.token) = .error e →
        newAdapter create config options =
          .error (.sessionCreateFailed ("failed to create Discord session: " ++ e))) ∧
      (∀ s, create ("Bot " ++ config.token) = .ok s →
        newAdapter create config options =
          .ok { applyAdapterOptions options { config := config, session := none } with
                session := some { s with intents := config.intents } })) := by
  cases hs : (applyAdapterOptions options { config := config, session := none }).session with
  | some s₀ =>
    refine ⟨?_, ?_, ?_⟩
    · simp [newAdapter, hs]
    · intro s hsome
      simp [newAdapter, hs]
    · intro hnone
      exact Option.noConfusion hnone
  | none =>
    by_cases ht : config.token = ""
    · refine ⟨?_, ?_, ?_⟩
      · simp [newAdapter, hs, ht]
      · intro s hsome
        exact Option.noConfusion hsome
      · intro _ hne
        exact absurd ht hne
    · refine ⟨?_, ?_, ?_⟩
      · cases hc : create ("Bot " ++ config.token) <;>
          simp [newAdapter, hs, ht, hc]
      · intro s hsome
        exact Option.noConfusion hsome
      · intro _ _
        constructor
        · intro e he
          simp [newAdapter, hs, ht, he]
        · intro s hsok
          simp [newAdapter, hs, ht, hsok]

/-- C6 witness: with an empty token and no injected session `NewAdapter`
returns the missing-token error, while injecting a session makes the same
empty-token construction succeed. -/
theorem newAdapter_spec_witness :
    newAdapter (fun _ => .error "dial failure")
        { token := "", helpCommand := ".help", abortCommand := ".abort", intents := 0 }
        [] = .error .emptyToken ∧
    newAdapter (fun _ => .error "dial failure")
        { token := "", helpCommand := ".help", abortCommand := ".abort", intents := 0 }
        [withSession { state := none, intents := 7 }] =
      .ok { config := { token := "", helpCommand := ".help", abortCommand := ".abort", intents := 0 },
            session := some { state := none, intents := 7 } } :=
  ⟨(newAdapter_spec (fun _ => .error "dial failure")
      { token := "", helpCommand := ".help", abortCommand := ".abort", intents := 0 }
      []).1.mpr ⟨rfl, rfl⟩,
    (newAdapter_spec (fun _ => .error "dial failure")
      { token := "", helpCommand := ".help", abortCommand := ".abort", intents := 0 }
      [withSession { state := none, intents := 7 }]).2.1
      { state := none, intents := 7 } rfl⟩

/-- C8: `NewResponse` succeeds exactly on this adapter's own `Input`
dynamic type, returning a response whose content is the supplied message;
any other input — one from another adapter or any wrapper around an
adapter `Input` — yields the type-mismatch error. -/
theorem newResponse_type_guard (input : SarahInput) (message : String)
    (options : List RespOption) :
    (∀ i, input = SarahInput.discord i →
      newResponse input message options =
        .ok { content := message,
              userContext := (applyRespOptions options { userContext := none }).userContext }) ∧
    ((∀ i, input ≠ SarahInput.discord i) →
      newResponse input message options =
        .error (input.goTypeName ++ " is not a *discord.Input")) ∧
    ((∃ e, newResponse input message options = .error e) ↔
      ∀ i, input ≠ SarahInput.discord i) := by
  cases input <;> simp [newResponse]

/-- C8 witness: a help-sentinel wrapper around an adapter `Input` is
rejected, and the adapter's own `Input` yields a response carrying the
message. -/
theorem newResponse_type_guard_witness :
    newResponse
        (SarahInput.helpWrapper (SarahInput.discord
          (inputOf { author := some ⟨"u"⟩, channelID := "c", content := "hi", timestamp := 0 } ⟨"u"⟩)))
        "reply text" [] =
      .error "*sarah.HelpInput is not a *discord.Input" ∧
    newResponse
        (SarahInput.discord
          (inputOf { author := some ⟨"u"⟩, channelID := "c", content := "hi", timestamp := 0 } ⟨"u"⟩))
        "reply text" [] =
      .ok { content := "reply text", userContext := none } := by
  constructor
  · exact (newResponse_type_guard
      (SarahInput.helpWrapper (SarahInput.discord
        (inputOf { author := some ⟨"u"⟩, channelID := "c", content := "hi", timestamp := 0 } ⟨"u"⟩)))
      "reply text" []).2.1 (fun i h => by exact SarahInput.noConfusion h)
  · exact (newResponse_type_guard
      (SarahInput.discord
        (inputOf { author := some ⟨"u"⟩, channelID := "c", content := "hi", timestamp := 0 } ⟨"u"⟩))
      "reply text" []).1 _ rfl

/-- C10: when the help and abort triggers are configured to the same
non-empty string, a message whose trimmed text equals it is enqueued as a
help sentinel and never as an abort sentinel: the help comparison runs
first. -/
theorem handleMessage_help_priority (config : Config) (s : Session)
    (m : MessageCreate) (input : Input)
    (hinput : messageToInput m = .ok input)
    (hself : isSelfMessage s m = false)
    (_heq : config.abortCommand = config.helpCommand)
    (hne : config.helpCommand ≠ "")
    (ht : trimSpace input.Message = config.helpCommand) :
    handleMessage config s m = some (.help input) ∧
    ∀ j, handleMessage config s m ≠ some (.abort j) := by
  have hbase := @handleMessage_not_self config s m input hinput hself
  have hhelp : handleMessage config s m = some (.help input) := by
    rw [hbase]
    simp [hne, ht]
  exact ⟨hhelp, fun j hcontra => by simp [hhelp] at hcontra⟩

/-- C10 witness: with help and abort both configured as ".x", the message
".x" is enqueued as a help sentinel. -/
theorem handleMessage_help_priority_witness :
    handleMessage
        { token := "", helpCommand := ".x", abortCommand := ".x", intents := 0 }
        { state := none, intents := 0 }
        { author := some ⟨"u"⟩, channelID := "c", content := ".x", timestamp := 0 } =
      some (.help (inputOf
        { author := some ⟨"u"⟩, channelID := "c", content := ".x", timestamp := 0 } ⟨"u"⟩)) :=
  (handleMessage_help_priority
      { token := "", helpCommand := ".x", abortCommand := ".x", intents := 0 }
      { state := none, intents := 0 }
      { author := some ⟨"u"⟩, channelID := "c", content := ".x", timestamp := 0 }
      (inputOf { author := some ⟨"u"⟩, channelID := "c", content := ".x", timestamp := 0 } ⟨"u"⟩)
      (messageToInput_some _ ⟨"u"⟩ rfl) rfl rfl (by decide) rfl).1

end Discord
